import Mathlib

/-!
Shallow embedding of the AI-Finance-Advisor application (src/app.py) and
verification of its specification.  Machine reals are modelled by exact
rationals; Python `round(x, 2)` (round-half-to-even) is modelled by `rnd2`;
Python strings are Lean strings, with `.lower()` and `.strip()` modelled by
`pyLower` and `pyStrip` over the character list.
-/

namespace FinanceAdvisor

/-! ### Python primitives -/

/-- Python `str.lower()`, modelled characterwise. -/
def pyLower (s : String) : String := ⟨s.data.map Char.toLower⟩

/-- Python `str.strip()`: remove leading and trailing whitespace. -/
def pyStrip (s : String) : String :=
  ⟨((s.data.dropWhile Char.isWhitespace).reverse.dropWhile Char.isWhitespace).reverse⟩

/-- Round-half-to-even to the nearest integer, as Python `round` does. -/
def rndHalfEven (x : ℚ) : ℤ :=
  if x - ⌊x⌋ < 1/2 then ⌊x⌋
  else if 1/2 < x - ⌊x⌋ then ⌊x⌋ + 1
  else if Even ⌊x⌋ then ⌊x⌋ else ⌊x⌋ + 1

/-- Python `round(x, 2)`. -/
def rnd2 (x : ℚ) : ℚ := (rndHalfEven (x * 100) : ℚ) / 100

/-! ### CSV resource loader (`load_resources`, `get_top_items`) -/

/-- One record of the instrument catalog (the dicts built by `load_resources`).
`type` is a Lean keywordless field name matching the Python dict key. -/
structure InstrumentRecord where
  type : String
  name : String
  cagr_10y : Option ℚ
  deriving Repr, DecidableEq

/-- One raw CSV row: the three fields `row.get` reads (with default `""`). -/
structure CsvRow where
  typeField : String
  nameField : String
  cagrField : String
  deriving Repr, DecidableEq

/-- The record `load_resources` appends for one row.  `parse` models Python
`float` restricted to success-or-`ValueError` (`none` = `ValueError`);
an empty CAGR field is falsy, so it is mapped to `none` without parsing. -/
def rowToRecord (parse : String → Option ℚ) (row : CsvRow) : InstrumentRecord :=
  { type := pyStrip row.typeField
    name := pyStrip row.nameField
    cagr_10y := if row.cagrField = "" then none else parse row.cagrField }

/-- `load_resources`.  The file system is modelled by `source : Option (List CsvRow)`:
`none` means opening raises `FileNotFoundError`.  The returned `Bool` records
whether the error message was shown (`st.error`); `resources` starts empty, so a
missing file yields the empty catalog. -/
def load_resources (parse : String → Option ℚ) (source : Option (List CsvRow)) :
    List InstrumentRecord × Bool :=
  match source with
  | none => ([], true)
  | some rows => (rows.map (rowToRecord parse), false)

/-- Python sort key of `get_top_items`:
`(x["cagr_10y"] is None, -x["cagr_10y"] if x["cagr_10y"] else 0)`.
A `0` CAGR is falsy in Python, hence the inner conditional. -/
def sortKey (x : InstrumentRecord) : Bool × ℚ :=
  (x.cagr_10y.isNone,
   match x.cagr_10y with
   | some c => if c = 0 then 0 else -c
   | none => 0)

/-- Lexicographic order on Python key tuples `(Bool, ℚ)` with `False < True`. -/
def keyLE (a b : Bool × ℚ) : Prop :=
  (a.1 = false ∧ b.1 = true) ∨ (a.1 = b.1 ∧ a.2 ≤ b.2)

instance : DecidableRel keyLE := by
  intro a b
  unfold keyLE
  infer_instance

/-- The record comparison used to sort in `get_top_items`. -/
def recLE (a b : InstrumentRecord) : Prop := keyLE (sortKey a) (sortKey b)

instance : DecidableRel recLE := by
  intro a b
  unfold recLE
  infer_instance

/-- `get_top_items`: filter by category (case-insensitive, category stripped),
stable-sort by the Python key, take the first `top_n`.  Python `list.sort` is a
stable ascending sort, which `List.insertionSort` reproduces exactly. -/
def get_top_items (resources : List InstrumentRecord) (category : String)
    (top_n : ℕ := 3) : List InstrumentRecord :=
  let cat := pyLower (pyStrip category)
  let filtered := resources.filter (fun r => pyLower r.type = cat)
  (List.insertionSort recLE filtered).take top_n

/-! ### Allocation engine (`investment_advice`) -/

/-- The five allocation buckets, as one table of rationals. -/
structure Ratio5 where
  stocks : ℚ
  mutualFunds : ℚ
  gold : ℚ
  insurance : ℚ
  emergencyFund : ℚ
  deriving Repr, DecidableEq

/-- The financial profile passed to `investment_advice` (its eight arguments). -/
structure Profile where
  income : ℚ
  expenses : ℚ
  age : ℤ
  risk_level : String
  occupation : String
  knowledge : String
  dependents : ℤ
  debt : ℚ

/-- `savings = income - expenses - debt`. -/
def savingsOf (p : Profile) : ℚ := p.income - p.expenses - p.debt

/-- Base ratio table selected by risk tolerance. -/
def baseRatio (risk_level : String) : Ratio5 :=
  if pyLower risk_level = "high" then
    ⟨45/100, 30/100, 10/100, 5/100, 10/100⟩
  else if pyLower risk_level = "moderate" then
    ⟨30/100, 30/100, 10/100, 10/100, 20/100⟩
  else
    ⟨20/100, 25/100, 10/100, 20/100, 25/100⟩

/-- The three conditional in-place adjustments, in source order. -/
def adjustedRatio (p : Profile) : Ratio5 :=
  let r0 := baseRatio p.risk_level
  let r1 := if p.age > 50 ∨ p.dependents > 3 then
      { r0 with stocks := r0.stocks - 10/100,
                insurance := r0.insurance + 5/100,
                emergencyFund := r0.emergencyFund + 5/100 }
    else r0
  let r2 := if pyLower p.occupation ∈ ["business", "freelancer"] then
      { r1 with emergencyFund := r1.emergencyFund + 5/100,
                mutualFunds := r1.mutualFunds - 5/100 }
    else r1
  let r3 := if pyLower p.knowledge = "beginner" then
      { r2 with stocks := r2.stocks - 5/100,
                mutualFunds := r2.mutualFunds + 5/100 }
    else r2
  r3

/-- `total_ratio = sum(ratio.values())`. -/
def total_ratio (r : Ratio5) : ℚ :=
  r.stocks + r.mutualFunds + r.gold + r.insurance + r.emergencyFund

/-- Normalization step: every ratio divided by the sum of all five. -/
def normalizeRatio (r : Ratio5) : Ratio5 :=
  let t := total_ratio r
  ⟨r.stocks / t, r.mutualFunds / t, r.gold / t, r.insurance / t, r.emergencyFund / t⟩

/-- The allocation amounts computed in the success branch:
each normalized ratio times savings, rounded to 2 decimals. -/
def allocations (p : Profile) : Ratio5 :=
  let savings := savingsOf p
  let r := normalizeRatio (adjustedRatio p)
  ⟨rnd2 (r.stocks * savings), rnd2 (r.mutualFunds * savings), rnd2 (r.gold * savings),
   rnd2 (r.insurance * savings), rnd2 (r.emergencyFund * savings)⟩

/-- The error message returned when savings are insufficient. -/
def insufficientMsg : String :=
  "Your savings after expenses and debts are insufficient for investment!"

/-- `investment_advice`: the sole error path is `savings <= 0`; otherwise the
allocation table is returned. -/
def investment_advice (p : Profile) : Except String Ratio5 :=
  if savingsOf p ≤ 0 then Except.error insufficientMsg
  else Except.ok (allocations p)

/-! ### Compounding with step-up (`compound_with_stepup`) -/

/-- One iteration of the loop body: state is `(total, monthly_investment)`,
`month` is the 0-based loop index. -/
def monthStep (r step_up_rate : ℚ) (month : ℕ) (st : ℚ × ℚ) : ℚ × ℚ :=
  let total := st.1 * (1 + r) + st.2
  let monthly_investment :=
    if (month + 1) % 12 = 0 then st.2 * (1 + step_up_rate) else st.2
  (total, monthly_investment)

/-- State after the first `n` loop iterations. -/
def runMonths (r step_up_rate : ℚ) (init : ℚ × ℚ) : ℕ → ℚ × ℚ
  | 0 => init
  | n + 1 => monthStep r step_up_rate n (runMonths r step_up_rate init n)

/-- Number of loop iterations: `range(int(years * 12))`.  Python `int`
truncates toward zero and `range` of a negative is empty, which
`Int.toNat ∘ Rat.floor` reproduces for every rational `years`. -/
def monthCount (years : ℚ) : ℕ := (⌊years * 12⌋).toNat

/-- `compound_with_stepup(principal, rate, years, monthly_addition, step_up_rate)`. -/
def compound_with_stepup (principal rate years monthly_addition step_up_rate : ℚ) : ℚ :=
  let r := rate / 12
  rnd2 ((runMonths r step_up_rate (principal, monthly_addition) (monthCount years)).1)

/-! ### Tab 2 explorer (Calculate Growth block) -/

/-- Output of the explorer: `(final_value, profit, progress)`. -/
structure GrowthResult where
  final_value : ℚ
  profit : ℚ
  progress : ℚ
  deriving Repr, DecidableEq

/-- The Calculate Growth computation of tab 2:
`final_value = amount * ((1 + rate / 100) ** years)`, `profit`, and the
progress bar value `min(final_value / (amount * 3), 1.0)`. -/
def calculateGrowth (amount rate : ℚ) (years : ℕ) : GrowthResult :=
  let final_value := amount * (1 + rate / 100) ^ years
  let profit := final_value - amount
  ⟨final_value, profit, min (final_value / (amount * 3)) 1⟩

/-! ### Tab 1 personalized-plan flow -/

/-- Fixed expected annual return per bucket (`returns_rate` in the source). -/
def returns_rate : Ratio5 := ⟨15/100, 13/100, 9/100, 5/100, 3/100⟩

/-- All inputs collected by tab 1, including the ones the computation
never reads (`goal`, `goal_amount`, `existing_savings`). -/
structure Request where
  age : ℤ
  income : ℚ
  expenses : ℚ
  debt : ℚ
  dependents : ℤ
  occupation : String
  knowledge : String
  risk_level : String
  step_up : ℚ
  years : ℚ
  goal : String
  goal_amount : ℚ
  existing_savings : ℚ

/-- The profile handed to `investment_advice` by tab 1. -/
def profileOf (req : Request) : Profile :=
  ⟨req.income, req.expenses, req.age, req.risk_level, req.occupation,
   req.knowledge, req.dependents, req.debt⟩

/-- Per-bucket projections and total of tab 1: for each bucket `k`,
`compound_with_stepup(0, returns_rate[k], years, plan[k], step_up)`. -/
def projections (req : Request) (plan : Ratio5) : Ratio5 :=
  ⟨compound_with_stepup 0 returns_rate.stocks req.years plan.stocks req.step_up,
   compound_with_stepup 0 returns_rate.mutualFunds req.years plan.mutualFunds req.step_up,
   compound_with_stepup 0 returns_rate.gold req.years plan.gold req.step_up,
   compound_with_stepup 0 returns_rate.insurance req.years plan.insurance req.step_up,
   compound_with_stepup 0 returns_rate.emergencyFund req.years plan.emergencyFund req.step_up⟩

/-- The whole numeric output of the tab 1 button handler: the allocation plan,
the five projected future values and the projected total, or the error. -/
def generatePlan (req : Request) : Except String (Ratio5 × Ratio5 × ℚ) :=
  match investment_advice (profileOf req) with
  | Except.error e => Except.error e
  | Except.ok plan =>
      let fv := projections req plan
      Except.ok (plan, fv, total_ratio fv)

/-! ### Spec-side description of the pre-normalization ratio table (for C1) -/

/-- Pointwise sum of two ratio tables. -/
def addRatio (a b : Ratio5) : Ratio5 :=
  ⟨a.stocks + b.stocks, a.mutualFunds + b.mutualFunds, a.gold + b.gold,
   a.insurance + b.insurance, a.emergencyFund + b.emergencyFund⟩

/-- The zero delta. -/
def zeroRatio : Ratio5 := ⟨0, 0, 0, 0, 0⟩

/-- Spec wording: fixed base table keyed by risk tolerance, the Low table
for any value other than High and Moderate. -/
def specBaseTable (risk_level : String) : Ratio5 :=
  if pyLower risk_level = "high" then
    ⟨45/100, 30/100, 10/100, 5/100, 10/100⟩
  else if pyLower risk_level = "moderate" then
    ⟨30/100, 30/100, 10/100, 10/100, 20/100⟩
  else
    ⟨20/100, 25/100, 10/100, 20/100, 25/100⟩

/-- Spec delta: age/dependents block — Stocks −0.10, Insurance +0.05,
Emergency Fund +0.05. -/
def specDeltaAge : Ratio5 := ⟨-(10/100), 0, 0, 5/100, 5/100⟩

/-- Spec delta: occupation block — Emergency Fund +0.05, Mutual Funds −0.05. -/
def specDeltaOccupation : Ratio5 := ⟨0, -(5/100), 0, 0, 5/100⟩

/-- Spec delta: knowledge block — Stocks −0.05, Mutual Funds +0.05. -/
def specDeltaKnowledge : Ratio5 := ⟨-(5/100), 5/100, 0, 0, 0⟩

/-- The pre-normalization ratio table as the spec words it: base table plus
the three additive adjustment blocks in the stated order, each condition
tested independently, no clamping. -/
def specRatioTable (p : Profile) : Ratio5 :=
  addRatio (addRatio (addRatio (specBaseTable p.risk_level)
    (if p.age > 50 ∨ p.dependents > 3 then specDeltaAge else zeroRatio))
    (if pyLower p.occupation = "business" ∨ pyLower p.occupation = "freelancer" then
      specDeltaOccupation else zeroRatio))
    (if pyLower p.knowledge = "beginner" then specDeltaKnowledge else zeroRatio)

/-- The ordering the spec claims for `get_top_items` output: non-null CAGR
records first in non-increasing CAGR order, null-CAGR records last. -/
def cagrGE (a b : InstrumentRecord) : Prop :=
  match a.cagr_10y, b.cagr_10y with
  | some x, some y => y ≤ x
  | some _, none => True
  | none, some _ => False
  | none, none => True

/-- A one-record catalog used to exhibit the whitespace counterexample. -/
def cexRecord : InstrumentRecord := ⟨"Stock", "A", some 1⟩

/-- A small concrete catalog for witnesses. -/
def exampleCatalog : List InstrumentRecord :=
  [⟨"Stock", "A", some 5⟩, ⟨"Stock", "B", some 12⟩, ⟨"Stock", "C", none⟩,
   ⟨"Gold", "D", some 7⟩, ⟨"Stock", "E", some 12⟩]

/-- A concrete CSV row whose CAGR field no parser accepts. -/
def badRow : CsvRow := ⟨"Stock", "A", "abc"⟩

/-- A concrete CSV row with a well-formed CAGR field. -/
def goodRow : CsvRow := ⟨"Gold", "B", "7.5"⟩

/-- Example profile with positive savings (tab 1 default inputs). -/
def exampleProfile : Profile :=
  ⟨50000, 25000, 30, "Low", "Job", "Beginner", 1, 5000⟩

/-- Example tab 1 request (default widget values). -/
def exampleRequest : Request :=
  ⟨30, 50000, 25000, 5000, 1, "Job", "Beginner", "Low", 5/100, 15,
   "Retirement", 1000000, 100000⟩

/-- Example profile with non-positive savings. -/
def brokeProfile : Profile :=
  ⟨1000, 2000, 30, "Low", "Job", "Beginner", 1, 0⟩

/-! ### Basic lemmas -/

theorem abs_rndHalfEven_sub (x : ℚ) : |(rndHalfEven x : ℚ) - x| ≤ 1/2 := by
  have h0 : (⌊x⌋ : ℚ) ≤ x := Int.floor_le x
  have h1 : x < ⌊x⌋ + 1 := Int.lt_floor_add_one x
  unfold rndHalfEven
  split_ifs with hf hg he <;> rw [abs_le] <;> push_cast <;> constructor <;> linarith

theorem abs_rnd2_sub (x : ℚ) : |rnd2 x - x| ≤ 1/200 := by
  have h := abs_rndHalfEven_sub (x * 100)
  have hx : rnd2 x - x = ((rndHalfEven (x * 100) : ℚ) - x * 100) / 100 := by
    unfold rnd2; ring
  rw [hx, abs_div, abs_of_pos (by norm_num : (0:ℚ) < 100)]
  linarith

theorem rndHalfEven_nonneg (x : ℚ) (hx : 0 ≤ x) : 0 ≤ rndHalfEven x := by
  have h : (0:ℤ) ≤ ⌊x⌋ := Int.floor_nonneg.mpr hx
  unfold rndHalfEven
  split_ifs <;> omega

theorem rnd2_nonneg (x : ℚ) (hx : 0 ≤ x) : 0 ≤ rnd2 x := by
  unfold rnd2
  apply div_nonneg _ (by norm_num)
  exact_mod_cast rndHalfEven_nonneg _ (by linarith)

/-- Every base table sums to 1. -/
theorem total_ratio_baseRatio (s : String) : total_ratio (baseRatio s) = 1 := by
  unfold baseRatio total_ratio
  split_ifs <;> norm_num

/-- The three adjustment blocks each add deltas summing to zero, so the
adjusted table keeps the base table's sum. -/
theorem total_ratio_adjustedRatio_eq_base (p : Profile) :
    total_ratio (adjustedRatio p) = total_ratio (baseRatio p.risk_level) := by
  unfold adjustedRatio total_ratio
  split_ifs <;> simp <;> ring

/-- The adjusted ratio table always sums to exactly 1. -/
theorem total_ratio_adjustedRatio (p : Profile) : total_ratio (adjustedRatio p) = 1 := by
  rw [total_ratio_adjustedRatio_eq_base, total_ratio_baseRatio]

/-! ### Claims -/

/-- Claim C3: `investment_advice` fails with the insufficiency error exactly
when `savings = income - expenses - debt ≤ 0`, and in that case produces no
allocation table; any other profile yields the allocation table. -/
theorem c3_sole_error_condition (p : Profile) :
    (investment_advice p = Except.error insufficientMsg ↔ savingsOf p ≤ 0) ∧
    (¬ savingsOf p ≤ 0 → investment_advice p = Except.ok (allocations p)) ∧
    ∀ e, investment_advice p = Except.error e → e = insufficientMsg := by
  unfold investment_advice
  split_ifs with h
  · refine ⟨⟨fun _ => h, fun _ => rfl⟩, fun hc => absurd h hc, fun e he => ?_⟩
    cases he
    rfl
  · refine ⟨⟨fun hc => ?_, fun hc => absurd hc h⟩, fun _ => rfl, fun e he => ?_⟩
    · cases hc
    · cases he

theorem c3_witness :
    (investment_advice brokeProfile = Except.error insufficientMsg ↔
      savingsOf brokeProfile ≤ 0) ∧
    investment_advice exampleProfile = Except.ok (allocations exampleProfile) :=
  ⟨(c3_sole_error_condition brokeProfile).1,
   (c3_sole_error_condition exampleProfile).2.1 (by norm_num [savingsOf, exampleProfile])⟩

/-- Claim C10: each conditional adjustment block adds deltas summing to zero,
so the pre-normalization ratio sum equals the base table's sum of 1 and the
normalization divisor is never zero. -/
theorem c10_divisor_nonzero (p : Profile) (hs : 0 < savingsOf p) :
    total_ratio (adjustedRatio p) = total_ratio (baseRatio p.risk_level) ∧
    total_ratio (baseRatio p.risk_level) = 1 ∧
    total_ratio (adjustedRatio p) ≠ 0 := by
  refine ⟨total_ratio_adjustedRatio_eq_base p, total_ratio_baseRatio _, ?_⟩
  rw [total_ratio_adjustedRatio]
  norm_num

/-- Every component of the adjusted ratio table is non-negative: case bash
over all reachable base tables and fired adjustment combinations. -/
theorem adjustedRatio_nonneg (p : Profile) :
    0 ≤ (adjustedRatio p).stocks ∧ 0 ≤ (adjustedRatio p).mutualFunds ∧
    0 ≤ (adjustedRatio p).gold ∧ 0 ≤ (adjustedRatio p).insurance ∧
    0 ≤ (adjustedRatio p).emergencyFund := by
  simp only [adjustedRatio, baseRatio, List.mem_cons, List.not_mem_nil, or_false]
  split_ifs <;> norm_num

/-- Claim C1: the pre-normalization ratio table is built exactly as the spec
describes — base table by risk tolerance plus the three additive adjustment
blocks in order, conditions independent, no clamping. -/
theorem c1_ratio_table_as_specified (p : Profile) (hs : 0 < savingsOf p) :
    adjustedRatio p = specRatioTable p := by
  simp only [adjustedRatio, baseRatio, specRatioTable, specBaseTable, addRatio,
    zeroRatio, specDeltaAge, specDeltaOccupation, specDeltaKnowledge,
    List.mem_cons, List.not_mem_nil, or_false]
  split_ifs <;> simp <;> norm_num

theorem c1_witness :
    0 < savingsOf exampleProfile ∧ adjustedRatio exampleProfile = specRatioTable exampleProfile :=
  ⟨by norm_num [savingsOf, exampleProfile],
   c1_ratio_table_as_specified exampleProfile (by norm_num [savingsOf, exampleProfile])⟩

/-- Claim C2: for positive savings, the returned amounts are the normalized
ratios times savings rounded to 2 decimals, and their sum equals savings to
within 0.01 per bucket (0.05 overall). -/
theorem c2_amounts_sum_close (p : Profile) (hs : 0 < savingsOf p) :
    investment_advice p = Except.ok (allocations p) ∧
    allocations p =
      ⟨rnd2 ((adjustedRatio p).stocks / total_ratio (adjustedRatio p) * savingsOf p),
       rnd2 ((adjustedRatio p).mutualFunds / total_ratio (adjustedRatio p) * savingsOf p),
       rnd2 ((adjustedRatio p).gold / total_ratio (adjustedRatio p) * savingsOf p),
       rnd2 ((adjustedRatio p).insurance / total_ratio (adjustedRatio p) * savingsOf p),
       rnd2 ((adjustedRatio p).emergencyFund / total_ratio (adjustedRatio p) * savingsOf p)⟩ ∧
    |total_ratio (allocations p) - savingsOf p| ≤ 5 * (1/100) := by
  have ht : total_ratio (adjustedRatio p) = 1 := total_ratio_adjustedRatio p
  have ht2 : (adjustedRatio p).stocks + (adjustedRatio p).mutualFunds +
      (adjustedRatio p).gold + (adjustedRatio p).insurance +
      (adjustedRatio p).emergencyFund = 1 := ht
  refine ⟨by unfold investment_advice; rw [if_neg (not_le.mpr hs)], rfl, ?_⟩
  have h1 := abs_le.mp (abs_rnd2_sub
    ((adjustedRatio p).stocks / total_ratio (adjustedRatio p) * savingsOf p))
  have h2 := abs_le.mp (abs_rnd2_sub
    ((adjustedRatio p).mutualFunds / total_ratio (adjustedRatio p) * savingsOf p))
  have h3 := abs_le.mp (abs_rnd2_sub
    ((adjustedRatio p).gold / total_ratio (adjustedRatio p) * savingsOf p))
  have h4 := abs_le.mp (abs_rnd2_sub
    ((adjustedRatio p).insurance / total_ratio (adjustedRatio p) * savingsOf p))
  have h5 := abs_le.mp (abs_rnd2_sub
    ((adjustedRatio p).emergencyFund / total_ratio (adjustedRatio p) * savingsOf p))
  have hsum : (adjustedRatio p).stocks / total_ratio (adjustedRatio p) * savingsOf p +
      (adjustedRatio p).mutualFunds / total_ratio (adjustedRatio p) * savingsOf p +
      (adjustedRatio p).gold / total_ratio (adjustedRatio p) * savingsOf p +
      (adjustedRatio p).insurance / total_ratio (adjustedRatio p) * savingsOf p +
      (adjustedRatio p).emergencyFund / total_ratio (adjustedRatio p) * savingsOf p =
      savingsOf p := by
    rw [ht]
    simp only [div_one]
    linear_combination savingsOf p * ht2
  have hgoal : total_ratio (allocations p) =
      rnd2 ((adjustedRatio p).stocks / total_ratio (adjustedRatio p) * savingsOf p) +
      rnd2 ((adjustedRatio p).mutualFunds / total_ratio (adjustedRatio p) * savingsOf p) +
      rnd2 ((adjustedRatio p).gold / total_ratio (adjustedRatio p) * savingsOf p) +
      rnd2 ((adjustedRatio p).insurance / total_ratio (adjustedRatio p) * savingsOf p) +
      rnd2 ((adjustedRatio p).emergencyFund / total_ratio (adjustedRatio p) * savingsOf p) := rfl
  rw [hgoal, abs_le]
  constructor <;> linarith

theorem c2_witness :
    investment_advice exampleProfile = Except.ok (allocations exampleProfile) ∧
    |total_ratio (allocations exampleProfile) - savingsOf exampleProfile| ≤ 5 * (1/100) :=
  ⟨(c2_amounts_sum_close exampleProfile (by norm_num [savingsOf, exampleProfile])).1,
   (c2_amounts_sum_close exampleProfile (by norm_num [savingsOf, exampleProfile])).2.2⟩

/-- Claim C6: for every profile with positive savings, each of the five
returned amounts is non-negative. -/
theorem c6_amounts_nonneg (p : Profile) (hs : 0 < savingsOf p) :
    investment_advice p = Except.ok (allocations p) ∧
    0 ≤ (allocations p).stocks ∧ 0 ≤ (allocations p).mutualFunds ∧
    0 ≤ (allocations p).gold ∧ 0 ≤ (allocations p).insurance ∧
    0 ≤ (allocations p).emergencyFund := by
  have ht : total_ratio (adjustedRatio p) = 1 := total_ratio_adjustedRatio p
  obtain ⟨n1, n2, n3, n4, n5⟩ := adjustedRatio_nonneg p
  have key : ∀ q : ℚ, 0 ≤ q →
      0 ≤ rnd2 (q / total_ratio (adjustedRatio p) * savingsOf p) := by
    intro q hq
    apply rnd2_nonneg
    apply mul_nonneg _ (le_of_lt hs)
    rw [ht]
    simpa using hq
  exact ⟨by unfold investment_advice; rw [if_neg (not_le.mpr hs)],
    key _ n1, key _ n2, key _ n3, key _ n4, key _ n5⟩

theorem c6_witness :
    investment_advice exampleProfile = Except.ok (allocations exampleProfile) ∧
    0 ≤ (allocations exampleProfile).stocks ∧ 0 ≤ (allocations exampleProfile).mutualFunds ∧
    0 ≤ (allocations exampleProfile).gold ∧ 0 ≤ (allocations exampleProfile).insurance ∧
    0 ≤ (allocations exampleProfile).emergencyFund :=
  c6_amounts_nonneg exampleProfile (by norm_num [savingsOf, exampleProfile])

theorem c10_witness :
    total_ratio (adjustedRatio exampleProfile) = 1 ∧
    total_ratio (adjustedRatio exampleProfile) ≠ 0 := by
  have h := c10_divisor_nonzero exampleProfile (by norm_num [savingsOf, exampleProfile])
  exact ⟨h.1.trans h.2.1, h.2.2⟩

/-- The contribution in the loop state after `k` iterations: the initial
monthly addition stepped up once per completed 12-month block. -/
theorem runMonths_contribution (r s principal c : ℚ) (k : ℕ) :
    (runMonths r s (principal, c) k).2 = c * (1 + s) ^ (k / 12) := by
  induction k with
  | zero => simp [runMonths]
  | succ n ih =>
    rw [runMonths]
    unfold monthStep
    simp only []
    rw [ih]
    by_cases h : (n + 1) % 12 = 0
    · rw [if_pos h, Nat.succ_div, if_pos (Nat.dvd_iff_mod_eq_zero.mpr h)]
      ring
    · rw [if_neg h, Nat.succ_div,
        if_neg (fun hc => h (Nat.dvd_iff_mod_eq_zero.mp hc))]
      simp

/-- One loop iteration updates the running total exactly as the source line
`total = total * (1 + r) + monthly_investment`. -/
theorem runMonths_total_step (r s : ℚ) (init : ℚ × ℚ) (k : ℕ) :
    (runMonths r s init (k + 1)).1 =
      (runMonths r s init k).1 * (1 + r) + (runMonths r s init k).2 := rfl

/-- Claim C4: `compound_with_stepup` runs exactly `⌊years*12⌋` iterations of
`total = total*(1+rate/12) + contribution`, steps the contribution up by
`(1+step_up_rate)` after each 12th month, uses `monthly_addition*(1+step_up_rate)`
during months 13–24, and returns the final total rounded to 2 decimals. -/
theorem c4_compound_with_stepup (principal rate years monthly_addition step_up_rate : ℚ)
    (hy : 0 ≤ years) :
    compound_with_stepup principal rate years monthly_addition step_up_rate =
      rnd2 ((runMonths (rate / 12) step_up_rate (principal, monthly_addition)
        (monthCount years)).1) ∧
    (monthCount years : ℤ) = ⌊years * 12⌋ ∧
    (∀ k : ℕ,
      (runMonths (rate / 12) step_up_rate (principal, monthly_addition) (k + 1)).1 =
        (runMonths (rate / 12) step_up_rate (principal, monthly_addition) k).1 *
          (1 + rate / 12) +
        (runMonths (rate / 12) step_up_rate (principal, monthly_addition) k).2) ∧
    (∀ k : ℕ, 12 ∣ (k + 1) →
      (runMonths (rate / 12) step_up_rate (principal, monthly_addition) (k + 1)).2 =
        (runMonths (rate / 12) step_up_rate (principal, monthly_addition) k).2 *
          (1 + step_up_rate)) ∧
    (∀ m : ℕ, 13 ≤ m → m ≤ 24 →
      (runMonths (rate / 12) step_up_rate (principal, monthly_addition) (m - 1)).2 =
        monthly_addition * (1 + step_up_rate)) := by
  refine ⟨rfl, ?_, fun k => runMonths_total_step _ _ _ k, ?_, ?_⟩
  · unfold monthCount
    have h0 : (0 : ℤ) ≤ ⌊years * 12⌋ := by
      apply Int.floor_nonneg.mpr
      positivity
    omega
  · intro k hk
    rw [runMonths]
    unfold monthStep
    simp only []
    rw [if_pos (Nat.mod_eq_zero_of_dvd hk)]
  · intro m h13 h24
    rw [runMonths_contribution]
    have hdiv : (m - 1) / 12 = 1 := by omega
    rw [hdiv, pow_one]

theorem c4_witness :
    compound_with_stepup 0 (12/100) 2 1000 (1/10) =
      rnd2 ((runMonths ((12/100) / 12) (1/10) (0, 1000) (monthCount 2)).1) ∧
    (monthCount 2 : ℤ) = ⌊(2 : ℚ) * 12⌋ ∧
    (runMonths ((12/100) / 12) (1/10) (0, 1000) 12).2 = 1000 * (1 + 1/10) :=
  ⟨(c4_compound_with_stepup 0 (12/100) 2 1000 (1/10) (by norm_num)).1,
   (c4_compound_with_stepup 0 (12/100) 2 1000 (1/10) (by norm_num)).2.1,
   (c4_compound_with_stepup 0 (12/100) 2 1000 (1/10) (by norm_num)).2.2.2.2 13
     (by norm_num) (by norm_num)⟩

/-- Claim C7: the explorer computes `amount * (1 + rate/100) ^ years`, profit
as future value minus amount, and progress `min(final/(amount*3), 1)`; at
`(10000, 12, 10)` the future value is 31058.48 after rounding to 2 decimals. -/
theorem c7_explorer_growth (amount rate : ℚ) (years : ℕ) :
    (calculateGrowth amount rate years).final_value = amount * (1 + rate / 100) ^ years ∧
    (calculateGrowth amount rate years).profit =
      (calculateGrowth amount rate years).final_value - amount ∧
    (calculateGrowth amount rate years).progress =
      min ((calculateGrowth amount rate years).final_value / (amount * 3)) 1 ∧
    rnd2 (calculateGrowth 10000 12 10).final_value = 31058.48 := by
  refine ⟨rfl, rfl, rfl, ?_⟩
  have hv : (calculateGrowth 10000 12 10).final_value * 100 =
      473914826712678400 / 152587890625 := by
    norm_num [calculateGrowth]
  have hfloor : ⌊(473914826712678400 : ℚ) / 152587890625⌋ = 3105848 := by
    norm_num [Int.floor_eq_iff]
  unfold rnd2 rndHalfEven
  rw [hv, hfloor]
  norm_num

theorem c7_witness :
    (calculateGrowth 10000 12 10).profit =
      (calculateGrowth 10000 12 10).final_value - 10000 ∧
    rnd2 (calculateGrowth 10000 12 10).final_value = 31058.48 :=
  ⟨(c7_explorer_growth 10000 12 10).2.1, (c7_explorer_growth 10000 12 10).2.2.2⟩

/-- Claim C9: the existing-savings input has no effect on the allocation, the
per-bucket projections, or the projected total. -/
theorem c9_existing_savings_unused (req : Request) (x : ℚ) :
    generatePlan { req with existing_savings := x } = generatePlan req := rfl

theorem c9_witness :
    generatePlan { exampleRequest with existing_savings := 999999 } =
      generatePlan exampleRequest :=
  c9_existing_savings_unused exampleRequest 999999

/-- The record built for a row with an absent or unparsable CAGR field has a
null CAGR. -/
theorem rowToRecord_cagr_none (parse : String → Option ℚ) (row : CsvRow)
    (h : row.cagrField = "" ∨ parse row.cagrField = none) :
    (rowToRecord parse row).cagr_10y = none := by
  unfold rowToRecord
  rcases h with h | h
  · simp [h]
  · split_ifs <;> simp [h]

/-- Claim C8: the loader contains all its failures — an unopenable source
yields the reported condition and the empty catalog, and a row with an absent
or unparsable CAGR yields a null CAGR for that row only while every row is
still loaded. -/
theorem c8_loader_error_containment (parse : String → Option ℚ) :
    load_resources parse none = ([], true) ∧
    ∀ rows : List CsvRow,
      (load_resources parse (some rows)).2 = false ∧
      (load_resources parse (some rows)).1.length = rows.length ∧
      ∀ i (h : i < rows.length),
        (load_resources parse (some rows)).1.get
            ⟨i, by simpa [load_resources] using h⟩ =
          rowToRecord parse (rows.get ⟨i, h⟩) ∧
        ((rows.get ⟨i, h⟩).cagrField = "" ∨ parse ((rows.get ⟨i, h⟩).cagrField) = none →
          ((load_resources parse (some rows)).1.get
              ⟨i, by simpa [load_resources] using h⟩).cagr_10y = none) := by
  refine ⟨rfl, fun rows => ⟨rfl, by simp [load_resources], fun i h => ?_⟩⟩
  have hg : (load_resources parse (some rows)).1.get
      ⟨i, by simpa [load_resources] using h⟩ = rowToRecord parse (rows.get ⟨i, h⟩) := by
    simp [load_resources, List.getElem_map]
  exact ⟨hg, fun hnone => by rw [hg]; exact rowToRecord_cagr_none parse _ hnone⟩

theorem c8_witness :
    load_resources (fun _ => none) none = ([], true) ∧
    (load_resources (fun _ => none) (some [badRow, goodRow])).1.length = 2 ∧
    ((load_resources (fun _ => none) (some [badRow, goodRow])).1.get
      ⟨0, by simp [load_resources]⟩).cagr_10y = none := by
  refine ⟨(c8_loader_error_containment (fun _ => none)).1, ?_, ?_⟩
  · have h := ((c8_loader_error_containment (fun _ => none)).2 [badRow, goodRow]).2.1
    simpa using h
  · exact (((c8_loader_error_containment (fun _ => none)).2 [badRow, goodRow]).2.2 0
      (by norm_num)).2 (Or.inr rfl)

/-- The sort comparison of `get_top_items` is total. -/
theorem recLE_total : ∀ a b : InstrumentRecord, recLE a b ∨ recLE b a := by
  intro a b
  unfold recLE
  generalize sortKey a = ka
  generalize sortKey b = kb
  rcases ka with ⟨a1, a2⟩
  rcases kb with ⟨b1, b2⟩
  unfold keyLE
  rcases le_total a2 b2 with h | h <;> cases a1 <;> cases b1 <;> simp [h]

/-- The sort comparison of `get_top_items` is transitive. -/
theorem recLE_trans : ∀ a b c : InstrumentRecord, recLE a b → recLE b c → recLE a c := by
  intro a b c
  unfold recLE
  generalize sortKey a = ka
  generalize sortKey b = kb
  generalize sortKey c = kc
  rcases ka with ⟨a1, a2⟩
  rcases kb with ⟨b1, b2⟩
  rcases kc with ⟨c1, c2⟩
  unfold keyLE
  cases a1 <;> cases b1 <;> cases c1 <;> simp <;>
    exact fun h1 h2 => le_trans h1 h2

/-- Filter commutes with ordered insertion of an element that satisfies the
predicate and relates to every element satisfying it. -/
theorem filter_orderedInsert_pos {α : Type} (r : α → α → Prop) [DecidableRel r]
    (p : α → Bool) (x : α) (l : List α) (hpx : p x = true)
    (h : ∀ y, p y = true → r x y) :
    (l.orderedInsert r x).filter p = x :: l.filter p := by
  induction l with
  | nil => simp [List.orderedInsert, hpx]
  | cons b l ih =>
    rw [List.orderedInsert]
    split_ifs with hr
    · simp [List.filter_cons, hpx]
    · have hpb : p b = false := by
        cases hpc : p b
        · rfl
        · exact absurd (h b hpc) hr
      simp [List.filter_cons, hpb, ih]

/-- Filter ignores ordered insertion of an element that fails the predicate. -/
theorem filter_orderedInsert_neg {α : Type} (r : α → α → Prop) [DecidableRel r]
    (p : α → Bool) (x : α) (l : List α) (hpx : p x = false) :
    (l.orderedInsert r x).filter p = l.filter p := by
  induction l with
  | nil => simp [List.orderedInsert, hpx]
  | cons b l ih =>
    rw [List.orderedInsert]
    split_ifs with hr
    · simp [List.filter_cons, hpx]
    · simp [List.filter_cons, ih]

/-- Stability of the sort used by `get_top_items`: among records of any fixed
sort key, the original relative order is preserved. -/
theorem insertionSort_sortKey_stable (l : List InstrumentRecord) (k : Bool × ℚ) :
    (List.insertionSort recLE l).filter (fun y => sortKey y = k) =
      l.filter (fun y => sortKey y = k) := by
  induction l with
  | nil => rfl
  | cons x l ih =>
    rw [List.insertionSort]
    by_cases hx : sortKey x = k
    · have hrel : ∀ y, decide (sortKey y = k) = true → recLE x y := by
        intro y hy
        have hyk : sortKey y = k := of_decide_eq_true hy
        unfold recLE keyLE
        right
        rw [hx, hyk]
        exact ⟨rfl, le_refl _⟩
      rw [filter_orderedInsert_pos recLE _ x _ (by simp [hx]) hrel, ih,
        List.filter_cons, if_pos (by simp [hx])]
    · rw [filter_orderedInsert_neg recLE _ x _ (by simp [hx]), ih,
        List.filter_cons, if_neg (by simp [hx])]

/-- The sort key of a record with a known CAGR. -/
theorem sortKey_of_some {a : InstrumentRecord} {x : ℚ} (h : a.cagr_10y = some x) :
    sortKey a = (false, -x) := by
  unfold sortKey
  rw [h]
  simp only [Option.isNone_some, Prod.mk.injEq, true_and]
  split_ifs with h0
  · rw [h0]; norm_num
  · rfl

/-- The sort key of a record with a null CAGR. -/
theorem sortKey_of_none {a : InstrumentRecord} (h : a.cagr_10y = none) :
    sortKey a = (true, 0) := by
  unfold sortKey
  rw [h]
  rfl

/-- The sort comparison implies the CAGR ordering claimed by the spec. -/
theorem recLE_imp_cagrGE : ∀ a b : InstrumentRecord, recLE a b → cagrGE a b := by
  intro a b h
  unfold recLE at h
  unfold cagrGE
  cases ha : a.cagr_10y with
  | none =>
    cases hb : b.cagr_10y with
    | none => simp
    | some y =>
      rw [sortKey_of_none ha, sortKey_of_some hb] at h
      unfold keyLE at h
      simp at h
  | some x =>
    cases hb : b.cagr_10y with
    | none => simp
    | some y =>
      rw [sortKey_of_some ha, sortKey_of_some hb] at h
      unfold keyLE at h
      simp at h
      linarith

/-- Counterexample to claim C5 as stated: the code strips the requested
category before comparing, so with the category string " stock" the returned
record's kind "Stock" does not equal the request case-insensitively. -/
theorem c5_counterexample :
    get_top_items [cexRecord] " stock" 3 = [cexRecord] ∧
    pyLower cexRecord.type ≠ pyLower " stock" := by
  constructor
  · decide
  · decide

/-- Claim C5 (amended): `get_top_items` returns at most `n` records, each
matching the whitespace-trimmed category case-insensitively, ordered with
non-null CAGR first in non-increasing order and nulls last, with a stable
tie-break; fewer than `n` matches return all matches, zero matches return
the empty list. -/
theorem c5_top_by_category (resources : List InstrumentRecord) (category : String)
    (n : ℕ) :
    (get_top_items resources category n).length ≤ n ∧
    (∀ r ∈ get_top_items resources category n,
      pyLower r.type = pyLower (pyStrip category)) ∧
    List.Pairwise cagrGE (get_top_items resources category n) ∧
    (∀ k : Bool × ℚ,
      (List.insertionSort recLE (resources.filter
          (fun r => pyLower r.type = pyLower (pyStrip category)))).filter
          (fun y => sortKey y = k) =
        (resources.filter (fun r => pyLower r.type = pyLower (pyStrip category))).filter
          (fun y => sortKey y = k)) ∧
    get_top_items resources category n =
      (List.insertionSort recLE (resources.filter
        (fun r => pyLower r.type = pyLower (pyStrip category)))).take n ∧
    ((resources.filter (fun r => pyLower r.type = pyLower (pyStrip category))).length ≤ n →
      get_top_items resources category n =
        List.insertionSort recLE (resources.filter
          (fun r => pyLower r.type = pyLower (pyStrip category)))) ∧
    (resources.filter (fun r => pyLower r.type = pyLower (pyStrip category)) = [] →
      get_top_items resources category n = []) := by
  haveI : IsTotal InstrumentRecord recLE := ⟨recLE_total⟩
  haveI : IsTrans InstrumentRecord recLE := ⟨recLE_trans⟩
  have hdef : get_top_items resources category n =
      (List.insertionSort recLE (resources.filter
        (fun r => pyLower r.type = pyLower (pyStrip category)))).take n := rfl
  have hsorted : List.Pairwise recLE (List.insertionSort recLE (resources.filter
      (fun r => pyLower r.type = pyLower (pyStrip category)))) :=
    List.sorted_insertionSort recLE _
  refine ⟨?_, ?_, ?_, fun k => insertionSort_sortKey_stable _ k, hdef, ?_, ?_⟩
  · rw [hdef]
    exact List.length_take_le n _
  · intro r hr
    rw [hdef] at hr
    have h1 : r ∈ List.insertionSort recLE (resources.filter
        (fun r => pyLower r.type = pyLower (pyStrip category))) :=
      List.mem_of_mem_take hr
    have h2 := (List.mem_insertionSort _).mp h1
    exact of_decide_eq_true (List.mem_filter.mp h2).2
  · rw [hdef]
    exact ((hsorted.sublist (List.take_sublist n _)).imp
      (fun hab => recLE_imp_cagrGE _ _ hab))
  · intro hlen
    rw [hdef]
    exact List.take_of_length_le (by rw [List.length_insertionSort]; exact hlen)
  · intro hemp
    rw [hdef, hemp]
    simp

theorem c5_witness :
    (get_top_items exampleCatalog "Stock" 3).length ≤ 3 ∧
    List.Pairwise cagrGE (get_top_items exampleCatalog "Stock" 3) ∧
    ((exampleCatalog.filter
        (fun r => pyLower r.type = pyLower (pyStrip "Gold"))).length ≤ 3 →
      get_top_items exampleCatalog "Gold" 3 =
        List.insertionSort recLE (exampleCatalog.filter
          (fun r => pyLower r.type = pyLower (pyStrip "Gold")))) :=
  ⟨(c5_top_by_category exampleCatalog "Stock" 3).1,
   (c5_top_by_category exampleCatalog "Stock" 3).2.2.1,
   (c5_top_by_category exampleCatalog "Gold" 3).2.2.2.2.2.1⟩

end FinanceAdvisor
